import Mathlib

/-!
Shallow embedding of the register-access client of the esp32-modbus-gateway
repository: the two Python example scripts
`src/examples/python/read_registers.py` (function `read_registers`) and
`src/examples/python/write_registers.py` (functions `write_single_register`
and `write_multiple_registers`).

Modelling choices, all taken from the source:
* Python integers are `Int` (unbounded).
* The decoded JSON reply body is an `Envelope` whose fields are `Option`s:
  a `none` field models a key absent from the dict, and a dict access
  `data[k]` on an absent key is an uncaught `KeyError`, modelled by the
  `exn` outcome constructor.
* The network is an oracle `Transport`: either the `requests.post` call
  raises a `requests.exceptions.RequestException` (`Transport.fail`,
  covering unreachable host, connection refused and timeout expiry), or it
  yields an HTTP response with a status code and a body that either decodes
  to an `Envelope` or does not decode (`body = none`; `response.json()`
  then raises a decode error that is a `RequestException` subclass and is
  caught by the scripts' `except` clause).
* `response.raise_for_status()` raises (a caught `RequestException`)
  exactly when `400 <= status < 600`; only `read_registers` calls it.
* Each function unconditionally posts one request; the payload it sends is
  returned in the first component so that theorems can speak about what
  reached the network.
* The outcome types `ReadOutcome` / `WriteOutcome` also carry the spec's
  error vocabulary (`validationError`, `gatewayFailure` with a category):
  these constructors are never produced by the embedded code; they exist so
  that the spec's claims about `ValidationError` / `GatewayFailure` values
  are statable against the code's actual outcomes.
-/

/-- Failure categories named by the spec for `GatewayFailure`. -/
inductive ErrorCategory where
  | Rejected
  | ProtocolViolation
deriving Repr, DecidableEq

/-- A decoded JSON reply body. Each field is `some v` when the key is
present in the dict and `none` when it is absent. The scripts only ever
access the keys `success`, `slave_id`, `address` and `values`; `count` is
carried because the spec says write replies echo it. -/
structure Envelope where
  success : Option Bool
  slave_id : Option Int
  address : Option Int
  values : Option (List Int)
  count : Option Int
deriving Repr, DecidableEq

/-- An HTTP response: status code plus the decoded body (`none` when the
body does not decode as JSON). -/
structure HttpResponse where
  status : Nat
  body : Option Envelope
deriving Repr, DecidableEq

/-- What the network does for the single `requests.post` call a function
makes: raise a `RequestException`, or deliver a response. -/
inductive Transport where
  | fail
  | reply (r : HttpResponse)
deriving Repr, DecidableEq

/-- The JSON payload `read_registers` posts to `/api/modbus/read`. -/
structure ReadPayload where
  slave_id : Int
  address : Int
  quantity : Int
deriving Repr, DecidableEq

/-- The JSON payload a write posts to `/api/modbus/write`: the single-value
shape `{slave_id, address, value}` or the batch shape
`{slave_id, address, values}`. -/
inductive WritePayload where
  | single (slave_id address value : Int)
  | batch (slave_id address : Int) (values : List Int)
deriving Repr, DecidableEq

/-- Caller-visible result of `read_registers`: the returned `data['values']`
list, the Python `None`, or an uncaught exception. `validationError` and
`gatewayFailure` are the spec's vocabulary, never produced by the code. -/
inductive ReadOutcome where
  | ok (vs : List Int)
  | nil
  | exn (e : String)
  | validationError (m : String)
  | gatewayFailure (c : ErrorCategory) (m : String)
deriving Repr, DecidableEq

/-- Caller-visible result of the write functions: the returned boolean or an
uncaught exception. `validationError` and `gatewayFailure` are the spec's
vocabulary, never produced by the code. -/
inductive WriteOutcome where
  | ret (b : Bool)
  | exn (e : String)
  | validationError (m : String)
  | gatewayFailure (c : ErrorCategory) (m : String)
deriving Repr, DecidableEq

/-- Whether a read outcome is a spec-style `ValidationError`. -/
def ReadOutcome.isValidationError : ReadOutcome → Bool
  | ReadOutcome.validationError _ => true
  | _ => false

/-- Whether a read outcome is a spec-style `GatewayFailure`. -/
def ReadOutcome.isGatewayFailure : ReadOutcome → Bool
  | ReadOutcome.gatewayFailure _ _ => true
  | _ => false

/-- Whether a read outcome is an uncaught exception. -/
def ReadOutcome.isExn : ReadOutcome → Bool
  | ReadOutcome.exn _ => true
  | _ => false

/-- Whether a write outcome is a spec-style `ValidationError`. -/
def WriteOutcome.isValidationError : WriteOutcome → Bool
  | WriteOutcome.validationError _ => true
  | _ => false

/-- Whether a write outcome is an uncaught exception. -/
def WriteOutcome.isExn : WriteOutcome → Bool
  | WriteOutcome.exn _ => true
  | _ => false

/-- Embedding of `read_registers(slave_id, address, quantity)` from
`src/examples/python/read_registers.py`. The function builds the payload
`{slave_id, address, quantity}`, posts it, calls `raise_for_status()`,
decodes the body, and then: on `data["success"]` truthy it prints
`data['slave_id']`, `data['address']` and iterates `data['values']`
(uncaught `KeyError` if any of those keys is absent, in that order) and
returns `data['values']`; on falsy it returns `None`; every
`RequestException` (connection error, timeout, HTTP error status, JSON
decode error) is caught and `None` is returned. The first component is the
payload that was posted. -/
def read_registers (slave_id address quantity : Int) (t : Transport) :
    Option ReadPayload × ReadOutcome :=
  let payload : ReadPayload := ⟨slave_id, address, quantity⟩
  let outcome : ReadOutcome :=
    match t with
    | Transport.fail => ReadOutcome.nil
    | Transport.reply r =>
      if 400 ≤ r.status ∧ r.status < 600 then
        ReadOutcome.nil
      else
        match r.body with
        | Option.none => ReadOutcome.nil
        | Option.some data =>
          match data.success with
          | Option.none => ReadOutcome.exn "KeyError: success"
          | Option.some false => ReadOutcome.nil
          | Option.some true =>
            match data.slave_id with
            | Option.none => ReadOutcome.exn "KeyError: slave_id"
            | Option.some _ =>
              match data.address with
              | Option.none => ReadOutcome.exn "KeyError: address"
              | Option.some _ =>
                match data.values with
                | Option.none => ReadOutcome.exn "KeyError: values"
                | Option.some vs => ReadOutcome.ok vs
  (Option.some payload, outcome)

/-- Embedding of `write_single_register(slave_id, address, value)` from
`src/examples/python/write_registers.py`. It posts the payload
`{slave_id, address, value}`, decodes the body (no `raise_for_status`:
the status code is never inspected), and returns `True` when
`data["success"]` is truthy, `False` when it is falsy; an absent `success`
key is an uncaught `KeyError`; every `RequestException` is caught and
`False` is returned. The first component is the payload that was posted. -/
def write_single_register (slave_id address value : Int) (t : Transport) :
    Option WritePayload × WriteOutcome :=
  let payload : WritePayload := WritePayload.single slave_id address value
  let outcome : WriteOutcome :=
    match t with
    | Transport.fail => WriteOutcome.ret false
    | Transport.reply r =>
      match r.body with
      | Option.none => WriteOutcome.ret false
      | Option.some data =>
        match data.success with
        | Option.none => WriteOutcome.exn "KeyError: success"
        | Option.some true => WriteOutcome.ret true
        | Option.some false => WriteOutcome.ret false
  (Option.some payload, outcome)

/-- Embedding of `write_multiple_registers(slave_id, address, values)` from
`src/examples/python/write_registers.py`. Identical to
`write_single_register` except that the posted payload is the batch shape
`{slave_id, address, values}`. -/
def write_multiple_registers (slave_id address : Int) (values : List Int)
    (t : Transport) : Option WritePayload × WriteOutcome :=
  let payload : WritePayload := WritePayload.batch slave_id address values
  let outcome : WriteOutcome :=
    match t with
    | Transport.fail => WriteOutcome.ret false
    | Transport.reply r =>
      match r.body with
      | Option.none => WriteOutcome.ret false
      | Option.some data =>
        match data.success with
        | Option.none => WriteOutcome.exn "KeyError: success"
        | Option.some true => WriteOutcome.ret true
        | Option.some false => WriteOutcome.ret false
  (Option.some payload, outcome)

/-- A gateway reply that completes the exchange and reports logical failure:
status 200, body `{success: false}`. -/
def tReject : Transport :=
  Transport.reply ⟨200, Option.some ⟨Option.some false, Option.none,
    Option.none, Option.none, Option.none⟩⟩

/-- A successful read reply carrying one value `[7]`. -/
def tOkRead7 : Transport :=
  Transport.reply ⟨200, Option.some ⟨Option.some true, Option.some 0,
    Option.some 0, Option.some [7], Option.none⟩⟩

/-- A successful read reply carrying two values `[7, 8]`. -/
def tOkRead78 : Transport :=
  Transport.reply ⟨200, Option.some ⟨Option.some true, Option.some 1,
    Option.some 65535, Option.some [7, 8], Option.none⟩⟩

/-- A successful write reply: status 200, body `{success: true}`. -/
def tOkWrite : Transport :=
  Transport.reply ⟨200, Option.some ⟨Option.some true, Option.none,
    Option.none, Option.none, Option.none⟩⟩

/-- A nominally successful read reply whose `values` list has 3 elements. -/
def tMismatch : Transport :=
  Transport.reply ⟨200, Option.some ⟨Option.some true, Option.some 1,
    Option.some 0, Option.some [1, 2, 3], Option.none⟩⟩

/-- The successful read reply of the spec's worked example:
`{success: true, slave_id: 1, address: 0, values: [0,1,2,3,4,5,6,7,8,9]}`. -/
def tExample : Transport :=
  Transport.reply ⟨200, Option.some ⟨Option.some true, Option.some 1,
    Option.some 0, Option.some [0, 1, 2, 3, 4, 5, 6, 7, 8, 9], Option.none⟩⟩

/-- A reply whose body decodes to the empty dict `{}`. -/
def tEmptyBody : Transport :=
  Transport.reply ⟨200, Option.some ⟨Option.none, Option.none, Option.none,
    Option.none, Option.none⟩⟩

/-- A read reply `{success: true}` missing every other expected field. -/
def tSuccessOnly : Transport :=
  Transport.reply ⟨200, Option.some ⟨Option.some true, Option.none,
    Option.none, Option.none, Option.none⟩⟩

/-! ## Helper lemmas

The scripts never construct a spec-style `ValidationError`: every branch of
each function yields `ok`/`nil`/`exn` (reads) or `ret`/`exn` (writes). -/

lemma read_registers_no_validation (s a q : Int) (t : Transport) :
    ((read_registers s a q t).2).isValidationError = false := by
  cases t with
  | fail => rfl
  | reply r =>
    obtain ⟨st, body⟩ := r
    by_cases h : 400 ≤ st ∧ st < 600
    · simp [read_registers, h, ReadOutcome.isValidationError]
    · rcases body with _ | ⟨suc, sid, adr, vals, cnt⟩
      · simp [read_registers, h, ReadOutcome.isValidationError]
      · rcases suc with _ | b
        · simp [read_registers, h, ReadOutcome.isValidationError]
        · rcases b with _ | _
          · simp [read_registers, h, ReadOutcome.isValidationError]
          · rcases sid with _ | x
            · simp [read_registers, h, ReadOutcome.isValidationError]
            · rcases adr with _ | y
              · simp [read_registers, h, ReadOutcome.isValidationError]
              · rcases vals with _ | vs
                · simp [read_registers, h, ReadOutcome.isValidationError]
                · simp [read_registers, h, ReadOutcome.isValidationError]

lemma write_single_no_validation (s a v : Int) (t : Transport) :
    ((write_single_register s a v t).2).isValidationError = false := by
  cases t with
  | fail => rfl
  | reply r =>
    obtain ⟨st, body⟩ := r
    rcases body with _ | ⟨suc, sid, adr, vals, cnt⟩
    · rfl
    · rcases suc with _ | b
      · rfl
      · cases b <;> rfl

lemma write_multiple_no_validation (s a : Int) (vs : List Int) (t : Transport) :
    ((write_multiple_registers s a vs t).2).isValidationError = false := by
  cases t with
  | fail => rfl
  | reply r =>
    obtain ⟨st, body⟩ := r
    rcases body with _ | ⟨suc, sid, adr, vals, cnt⟩
    · rfl
    · rcases suc with _ | b
      · rfl
      · cases b <;> rfl

/-! ## Claim C1 -/

/-- C1 counterexample: the claim says a transport failure and a completed
exchange that the gateway rejects must be caller-distinguishable. In the
code they are the identical value: `read_registers` returns None for both,
and both write functions return False for both. -/
theorem c1_counterexample :
    (read_registers 1 0 1 Transport.fail).2 = (read_registers 1 0 1 tReject).2 ∧
    (write_single_register 1 0 5 Transport.fail).2 =
      (write_single_register 1 0 5 tReject).2 ∧
    (write_multiple_registers 1 0 [5, 6] Transport.fail).2 =
      (write_multiple_registers 1 0 [5, 6] tReject).2 := by
  decide

/-- C1 amended: the three error kinds do not surface distinctly; transport
errors and gateway-reported failures collapse to the same caller-visible
value — None for reads and False for writes — carrying no category or
message. -/
theorem c1_amended (s a q v : Int) (vs : List Int) (st : Nat) (env : Envelope)
    (hst : st < 400) (hs : env.success = Option.some false) :
    (read_registers s a q Transport.fail).2 = ReadOutcome.nil ∧
    (read_registers s a q (Transport.reply ⟨st, Option.some env⟩)).2 =
      ReadOutcome.nil ∧
    (write_single_register s a v Transport.fail).2 = WriteOutcome.ret false ∧
    (write_single_register s a v (Transport.reply ⟨st, Option.some env⟩)).2 =
      WriteOutcome.ret false ∧
    (write_multiple_registers s a vs Transport.fail).2 = WriteOutcome.ret false ∧
    (write_multiple_registers s a vs (Transport.reply ⟨st, Option.some env⟩)).2 =
      WriteOutcome.ret false := by
  have h : ¬(400 ≤ st ∧ st < 600) := fun hc => absurd hc.1 (Nat.not_le.mpr hst)
  refine ⟨rfl, ?_, rfl, ?_, rfl, ?_⟩
  · simp [read_registers, h, hs]
  · simp [write_single_register, hs]
  · simp [write_multiple_registers, hs]

/-- C1 witness: the amended statement at slaveId 1, address 0, quantity 1,
value 5, batch [5, 6], status 200 and a reject body. -/
theorem c1_witness :
    (read_registers 1 0 1 Transport.fail).2 = ReadOutcome.nil ∧
    (read_registers 1 0 1 (Transport.reply ⟨200, Option.some ⟨Option.some false,
      Option.none, Option.none, Option.none, Option.none⟩⟩)).2 =
      ReadOutcome.nil ∧
    (write_single_register 1 0 5 Transport.fail).2 = WriteOutcome.ret false ∧
    (write_single_register 1 0 5 (Transport.reply ⟨200, Option.some
      ⟨Option.some false, Option.none, Option.none, Option.none,
      Option.none⟩⟩)).2 = WriteOutcome.ret false ∧
    (write_multiple_registers 1 0 [5, 6] Transport.fail).2 =
      WriteOutcome.ret false ∧
    (write_multiple_registers 1 0 [5, 6] (Transport.reply ⟨200, Option.some
      ⟨Option.some false, Option.none, Option.none, Option.none,
      Option.none⟩⟩)).2 = WriteOutcome.ret false :=
  c1_amended 1 0 1 5 [5, 6] 200 ⟨Option.some false, Option.none, Option.none,
    Option.none, Option.none⟩ (by decide) rfl

/-! ## Claim C2 -/

/-- C2 counterexample: the claim says every slaveId outside 1–247 makes both
builders fail with a ValidationError before any network activity. With
slaveId 0 (and 248 for the batch write) the scripts post the request and
even complete successfully; no ValidationError exists anywhere. -/
theorem c2_counterexample :
    read_registers 0 0 1 tOkRead7 =
      (Option.some ⟨0, 0, 1⟩, ReadOutcome.ok [7]) ∧
    (read_registers 0 0 1 tOkRead7).2.isValidationError = false ∧
    write_single_register 0 0 5 tOkWrite =
      (Option.some (WritePayload.single 0 0 5), WriteOutcome.ret true) ∧
    (write_single_register 0 0 5 tOkWrite).2.isValidationError = false ∧
    write_multiple_registers 248 0 [5] tOkWrite =
      (Option.some (WritePayload.batch 248 0 [5]), WriteOutcome.ret true) ∧
    (write_multiple_registers 248 0 [5] tOkWrite).2.isValidationError = false := by
  decide

/-- C2 amended: no function validates slaveId. For every slaveId — inside or
outside 1–247 — the request is posted to the network with the slaveId
unchanged, and no outcome is ever a ValidationError. -/
theorem c2_amended (s a q v : Int) (vs : List Int) (t : Transport) :
    (read_registers s a q t).1 = Option.some ⟨s, a, q⟩ ∧
    (read_registers s a q t).2.isValidationError = false ∧
    (write_single_register s a v t).1 =
      Option.some (WritePayload.single s a v) ∧
    (write_single_register s a v t).2.isValidationError = false ∧
    (write_multiple_registers s a vs t).1 =
      Option.some (WritePayload.batch s a vs) ∧
    (write_multiple_registers s a vs t).2.isValidationError = false :=
  ⟨rfl, read_registers_no_validation s a q t, rfl,
    write_single_no_validation s a v t, rfl,
    write_multiple_no_validation s a vs t⟩

/-! ## Claim C3 -/

/-- C3 counterexample: the claim says a read whose address range overflows
65535 fails with a ValidationError and is never sent. With address 65535
and quantity 2 (end address 65536) the script posts the request and returns
the gateway values. -/
theorem c3_counterexample :
    (65535 : Int) + 2 - 1 > 65535 ∧
    read_registers 1 65535 2 tOkRead78 =
      (Option.some ⟨1, 65535, 2⟩, ReadOutcome.ok [7, 8]) ∧
    (read_registers 1 65535 2 tOkRead78).2.isValidationError = false := by
  decide

/-- C3 amended: the script performs no address-range check. Every read
intent whose address range overflows 65535 is still posted to the network
with its fields unchanged, and no outcome is a ValidationError. -/
theorem c3_amended (s a q : Int) (t : Transport) (h : a + q - 1 > 65535) :
    (read_registers s a q t).1 = Option.some ⟨s, a, q⟩ ∧
    (read_registers s a q t).2.isValidationError = false :=
  ⟨rfl, read_registers_no_validation s a q t⟩

/-- C3 witness: the amended statement at slaveId 1, address 65535,
quantity 2, against a successful two-value reply. -/
theorem c3_witness :
    (read_registers 1 65535 2 tOkRead78).1 = Option.some ⟨1, 65535, 2⟩ ∧
    (read_registers 1 65535 2 tOkRead78).2.isValidationError = false :=
  c3_amended 1 65535 2 tOkRead78 (by decide)

/-! ## Claim C4 -/

/-- C4 counterexample: the claim says quantity outside 1–125 (reads) and an
empty values sequence (writes) fail with a ValidationError before any
network activity. With quantity 126 the read is posted and succeeds, and a
batch write of `[]` is posted and returns True. -/
theorem c4_counterexample :
    read_registers 1 0 126 tOkRead7 =
      (Option.some ⟨1, 0, 126⟩, ReadOutcome.ok [7]) ∧
    (read_registers 1 0 126 tOkRead7).2.isValidationError = false ∧
    write_multiple_registers 1 0 [] tOkWrite =
      (Option.some (WritePayload.batch 1 0 []), WriteOutcome.ret true) ∧
    (write_multiple_registers 1 0 [] tOkWrite).2.isValidationError = false := by
  decide

/-- C4 amended: neither bound is checked. A read with quantity outside
1–125 is posted with its fields unchanged, an empty-values batch write is
posted as `{slave_id, address, values: []}`, and no outcome is ever a
ValidationError. -/
theorem c4_amended (s a q : Int) (t t2 : Transport) (h : q < 1 ∨ 125 < q) :
    (read_registers s a q t).1 = Option.some ⟨s, a, q⟩ ∧
    (read_registers s a q t).2.isValidationError = false ∧
    (write_multiple_registers s a [] t2).1 =
      Option.some (WritePayload.batch s a []) ∧
    (write_multiple_registers s a [] t2).2.isValidationError = false :=
  ⟨rfl, read_registers_no_validation s a q t, rfl,
    write_multiple_no_validation s a [] t2⟩

/-- C4 witness: the amended statement at slaveId 1, address 0, quantity 126. -/
theorem c4_witness :
    (read_registers 1 0 126 tOkRead7).1 = Option.some ⟨1, 0, 126⟩ ∧
    (read_registers 1 0 126 tOkRead7).2.isValidationError = false ∧
    (write_multiple_registers 1 0 [] tOkWrite).1 =
      Option.some (WritePayload.batch 1 0 []) ∧
    (write_multiple_registers 1 0 [] tOkWrite).2.isValidationError = false :=
  c4_amended 1 0 126 tOkRead7 tOkWrite (by decide)

/-! ## Claim C5 -/

/-- C5 counterexample: the claim says a successful read reply whose values
length differs from the requested quantity yields a GatewayFailure with
category ProtocolViolation and the mismatched list is never returned.
Requesting quantity 10 against a reply carrying 3 values, the script
returns the 3-element list as-is. -/
theorem c5_counterexample :
    (read_registers 1 0 10 tMismatch).2 = ReadOutcome.ok [1, 2, 3] ∧
    (read_registers 1 0 10 tMismatch).2.isGatewayFailure = false := by
  decide

/-- C5 amended: the script performs no length check. On any success reply
in which the accessed fields are present, the values list is returned to
the caller unchanged, even when its length differs from the requested
quantity. -/
theorem c5_amended (s a q : Int) (st : Nat) (env : Envelope) (vs : List Int)
    (hst : st < 400) (hsuc : env.success = Option.some true)
    (hsid : env.slave_id ≠ Option.none) (hadr : env.address ≠ Option.none)
    (hvals : env.values = Option.some vs) :
    (read_registers s a q (Transport.reply ⟨st, Option.some env⟩)).2 =
      ReadOutcome.ok vs := by
  have h : ¬(400 ≤ st ∧ st < 600) := fun hc => absurd hc.1 (Nat.not_le.mpr hst)
  obtain ⟨suc, sid, adr, vals2, cnt⟩ := env
  simp only at hsuc hsid hadr hvals
  subst hsuc
  subst hvals
  rcases sid with _ | x
  · exact absurd rfl hsid
  · rcases adr with _ | y
    · exact absurd rfl hadr
    · simp [read_registers, h]

/-- C5 witness: the amended statement at slaveId 1, address 0, quantity 10,
against a reply carrying only 3 values. -/
theorem c5_witness :
    (read_registers 1 0 10 (Transport.reply ⟨200, Option.some
      ⟨Option.some true, Option.some 1, Option.some 0,
      Option.some [1, 2, 3], Option.none⟩⟩)).2 = ReadOutcome.ok [1, 2, 3] :=
  c5_amended 1 0 10 200 ⟨Option.some true, Option.some 1, Option.some 0,
    Option.some [1, 2, 3], Option.none⟩ [1, 2, 3] (by decide) rfl
    (by decide) (by decide) rfl

/-! ## Claim C6 -/

/-- C6 counterexample: the claim says a decoded reply with success false
yields a GatewayFailure with category Rejected. The script yields the bare
None value, which carries no category and is not a GatewayFailure (it is
the very value a transport error produces). -/
theorem c6_counterexample :
    (read_registers 1 0 1 tReject).2 = ReadOutcome.nil ∧
    (read_registers 1 0 1 tReject).2.isGatewayFailure = false := by
  decide

/-- C6 amended: a decoded read reply with success false yields the generic
None value — never the values list, but also not a categorized
GatewayFailure. -/
theorem c6_amended (s a q : Int) (st : Nat) (env : Envelope)
    (hst : st < 400) (hs : env.success = Option.some false) :
    (read_registers s a q (Transport.reply ⟨st, Option.some env⟩)).2 =
      ReadOutcome.nil := by
  have h : ¬(400 ≤ st ∧ st < 600) := fun hc => absurd hc.1 (Nat.not_le.mpr hst)
  simp [read_registers, h, hs]

/-- C6 witness: the amended statement at slaveId 1, address 0, quantity 1,
status 200 and body with success false. -/
theorem c6_witness :
    (read_registers 1 0 1 (Transport.reply ⟨200, Option.some
      ⟨Option.some false, Option.none, Option.none, Option.none,
      Option.none⟩⟩)).2 = ReadOutcome.nil :=
  c6_amended 1 0 1 200 ⟨Option.some false, Option.none, Option.none,
    Option.none, Option.none⟩ (by decide) rfl

/-! ## Claim C7 -/

/-- C7: a single-value write and a one-element batch write are observably
equivalent to the caller: for every slaveId, address, value and every
behaviour of the network, both produce the same caller-visible result
(neither inspects the status code, and both map the same decoded reply to
the same returned value). Only the posted wire shape differs. -/
theorem c7_single_batch_equiv (s a v : Int) (t : Transport) :
    (write_single_register s a v t).2 = (write_multiple_registers s a [v] t).2 := by
  cases t with
  | fail => rfl
  | reply r =>
    obtain ⟨st, body⟩ := r
    rcases body with _ | ⟨suc, sid, adr, vals, cnt⟩
    · rfl
    · rcases suc with _ | b
      · rfl
      · cases b <;> rfl

/-! ## Claim C8 -/

/-- C8 counterexample: the claim says interpretation of an already-decoded
envelope never raises except the explicit contract violations, in
particular not on missing fields. A decoded empty envelope raises an
uncaught KeyError on the success key in all three functions, and a read
reply containing only success true raises an uncaught KeyError on the
slave_id key. -/
theorem c8_counterexample :
    (read_registers 1 0 1 tEmptyBody).2 = ReadOutcome.exn "KeyError: success" ∧
    (read_registers 1 0 1 tSuccessOnly).2 =
      ReadOutcome.exn "KeyError: slave_id" ∧
    (write_single_register 1 0 5 tEmptyBody).2 =
      WriteOutcome.exn "KeyError: success" ∧
    (write_multiple_registers 1 0 [5] tEmptyBody).2 =
      WriteOutcome.exn "KeyError: success" := by
  decide

/-- C8 amended: interpretation is exception-free only on envelopes carrying
the accessed keys. When success, slave_id, address and values are all
present, none of the three functions raises; a missing accessed key raises
an uncaught KeyError. -/
theorem c8_amended (s a q v : Int) (vs : List Int) (st : Nat) (env : Envelope)
    (hsuc : env.success ≠ Option.none) (hsid : env.slave_id ≠ Option.none)
    (hadr : env.address ≠ Option.none) (hvals : env.values ≠ Option.none) :
    (read_registers s a q (Transport.reply ⟨st, Option.some env⟩)).2.isExn =
      false ∧
    (write_single_register s a v
      (Transport.reply ⟨st, Option.some env⟩)).2.isExn = false ∧
    (write_multiple_registers s a vs
      (Transport.reply ⟨st, Option.some env⟩)).2.isExn = false := by
  obtain ⟨suc, sid, adr, vals2, cnt⟩ := env
  simp only at hsuc hsid hadr hvals
  rcases suc with _ | b
  · exact absurd rfl hsuc
  · rcases sid with _ | x
    · exact absurd rfl hsid
    · rcases adr with _ | y
      · exact absurd rfl hadr
      · rcases vals2 with _ | vs2
        · exact absurd rfl hvals
        · by_cases h : 400 ≤ st ∧ st < 600 <;> cases b <;>
            simp [read_registers, write_single_register,
              write_multiple_registers, h, ReadOutcome.isExn,
              WriteOutcome.isExn]

/-- C8 witness: the amended statement at slaveId 1, address 0, quantity 1,
value 5, batch [5], status 200 and a fully-populated success envelope. -/
theorem c8_witness :
    (read_registers 1 0 1 (Transport.reply ⟨200, Option.some
      ⟨Option.some true, Option.some 1, Option.some 0, Option.some [5],
      Option.none⟩⟩)).2.isExn = false ∧
    (write_single_register 1 0 5 (Transport.reply ⟨200, Option.some
      ⟨Option.some true, Option.some 1, Option.some 0, Option.some [5],
      Option.none⟩⟩)).2.isExn = false ∧
    (write_multiple_registers 1 0 [5] (Transport.reply ⟨200, Option.some
      ⟨Option.some true, Option.some 1, Option.some 0, Option.some [5],
      Option.none⟩⟩)).2.isExn = false :=
  c8_amended 1 0 1 5 [5] 200 ⟨Option.some true, Option.some 1, Option.some 0,
    Option.some [5], Option.none⟩ (by decide) (by decide) (by decide)
    (by decide)

/-! ## Claim C9 -/

/-- C9: for all in-range (slaveId, address, quantity) the posted read
payload equals the inputs exactly; and the worked example — slaveId 1,
address 0, quantity 10 against the reply with success true and values
0..9 — returns that values list, whose entry at every index i in 0..9 is
i. -/
theorem c9_build_and_example (s a q : Int) (t : Transport)
    (hs1 : 1 ≤ s) (hs2 : s ≤ 247) (hq1 : 1 ≤ q) (hq2 : q ≤ 125)
    (ha1 : 0 ≤ a) (ha2 : a + q - 1 ≤ 65535) :
    (read_registers s a q t).1 = Option.some ⟨s, a, q⟩ ∧
    read_registers 1 0 10 tExample =
      (Option.some ⟨1, 0, 10⟩,
        ReadOutcome.ok [0, 1, 2, 3, 4, 5, 6, 7, 8, 9]) ∧
    (∀ i : Nat, i < 10 →
      List.getD [(0 : Int), 1, 2, 3, 4, 5, 6, 7, 8, 9] i 0 = (i : Int)) :=
  ⟨rfl, by decide, by decide⟩

/-- C9 witness: the statement at slaveId 1, address 0, quantity 10 against
the worked example reply. -/
theorem c9_witness :
    (read_registers 1 0 10 tExample).1 = Option.some ⟨1, 0, 10⟩ ∧
    read_registers 1 0 10 tExample =
      (Option.some ⟨1, 0, 10⟩,
        ReadOutcome.ok [0, 1, 2, 3, 4, 5, 6, 7, 8, 9]) ∧
    (∀ i : Nat, i < 10 →
      List.getD [(0 : Int), 1, 2, 3, 4, 5, 6, 7, 8, 9] i 0 = (i : Int)) :=
  c9_build_and_example 1 0 10 tExample (by decide) (by decide) (by decide)
    (by decide) (by decide) (by decide)

/-! ## Claim C10 -/

/-- C10: for every write whose reply body decodes to an envelope containing
a success field, the returned value is True exactly when that field is
truthy — the status code (quantified freely) and the echoed address, count
and values fields (the rest of the envelope is quantified freely) never
influence the outcome. By contrast the read path maps every reply whose
status is in 400..599, the range raise_for_status raises on, to None
regardless of the body. -/
theorem c10_write_ignores_status (s a v q : Int) (vs : List Int)
    (st st2 : Nat) (env : Envelope) (b : Bool) (body : Option Envelope)
    (hb : env.success = Option.some b) (h4 : 400 ≤ st2) (h6 : st2 < 600) :
    (write_single_register s a v (Transport.reply ⟨st, Option.some env⟩)).2 =
      WriteOutcome.ret b ∧
    (write_multiple_registers s a vs
      (Transport.reply ⟨st, Option.some env⟩)).2 = WriteOutcome.ret b ∧
    (read_registers s a q (Transport.reply ⟨st2, body⟩)).2 =
      ReadOutcome.nil := by
  refine ⟨?_, ?_, ?_⟩
  · cases b <;> simp [write_single_register, hb]
  · cases b <;> simp [write_multiple_registers, hb]
  · simp [read_registers, h4, h6]

/-- C10 witness: the statement at slaveId 1, address 0, value 5, batch
[5, 6], quantity 1, write status 503, read status 404, and an envelope
whose success is true while its echoed fields disagree with the request. -/
theorem c10_witness :
    (write_single_register 1 0 5 (Transport.reply ⟨503, Option.some
      ⟨Option.some true, Option.some 9, Option.some 9, Option.some [9],
      Option.some 9⟩⟩)).2 = WriteOutcome.ret true ∧
    (write_multiple_registers 1 0 [5, 6] (Transport.reply ⟨503, Option.some
      ⟨Option.some true, Option.some 9, Option.some 9, Option.some [9],
      Option.some 9⟩⟩)).2 = WriteOutcome.ret true ∧
    (read_registers 1 0 1 (Transport.reply ⟨404, Option.some
      ⟨Option.some true, Option.some 1, Option.some 0, Option.some [5],
      Option.none⟩⟩)).2 = ReadOutcome.nil :=
  c10_write_ignores_status 1 0 5 1 [5, 6] 503 404
    ⟨Option.some true, Option.some 9, Option.some 9, Option.some [9],
      Option.some 9⟩ true
    (Option.some ⟨Option.some true, Option.some 1, Option.some 0,
      Option.some [5], Option.none⟩) rfl (by decide) (by decide)
